import Mathlib

/-!
Verification development for the revenue-breakdown extraction engine of
src/edgar/filing.py (class RevenueBreakdownExtractor and
Filing.get_revenue_breakdown). The Python code is shallowly embedded:
a table is its list of rows, a row its list of cell texts, Python dicts
are association lists keeping insertion order, and Python string
builtins are re-implemented over lists of characters. Numeric amounts,
floats in Python, are modelled exactly as decimals in canonical form
(an integer times a power of ten); every number this code produces or
compares is such a decimal, so the model is exact where the code runs.
-/

namespace Edgar

/-- Model of the Python whitespace class as used by str.strip on the
inputs of this code base (space, tab, newline, carriage return). -/
def isPySpace (c : Char) : Bool :=
  c == ' ' || c == '\t' || c == '\n' || c == '\r'

/-- Model of Python str.strip with no argument. -/
def pyStrip (s : String) : String :=
  ⟨((s.data.dropWhile isPySpace).reverse.dropWhile isPySpace).reverse⟩

/-- Model of Python str.lower restricted to ASCII letters, which is all
the code compares against (keyword lists are ASCII). -/
def pyLower (s : String) : String :=
  ⟨s.data.map Char.toLower⟩

/-- Does the pattern occur at the head of the list? -/
def prefAt : List Char → List Char → Bool
  | [], _ => true
  | _ :: _, [] => false
  | a :: as, b :: bs => a == b && prefAt as bs

/-- Model of the Python substring test (pat in hay): true when pat occurs
contiguously in hay; an empty pattern is contained in every string. -/
def containsSubL (pat : List Char) : List Char → Bool
  | [] => pat.isEmpty
  | h :: t => prefAt pat (h :: t) || containsSubL pat t

/-- Model of the Python substring test for strings. -/
def containsSub (hay pat : String) : Bool :=
  containsSubL pat.data hay.data

/-- Worker for pyReplace. The fuel starts at the length of the subject
list and every step consumes at least one subject character when the
pattern is non-empty, so the fuel never runs out on the calls made by
pyReplace; it only makes the recursion structural. -/
def replGo (pat rep : List Char) : Nat → List Char → List Char
  | 0, s => s
  | _ + 1, [] => []
  | fuel + 1, c :: cs =>
    if pat ≠ [] ∧ prefAt pat (c :: cs) then
      rep ++ replGo pat rep fuel (List.drop (pat.length - 1) cs)
    else
      c :: replGo pat rep fuel cs

/-- Model of Python str.replace with a non-empty pattern: replaces all
non-overlapping occurrences, scanning left to right. All patterns used
by the embedded code are non-empty. -/
def pyReplace (s pat rep : String) : String :=
  ⟨replGo pat.data rep.data s.data.length s.data⟩

/-- An exact decimal number: the value num divided by ten to the exp.
Canonical form, kept by all operations below: if exp is positive, num is
not a multiple of ten. This stands in for the Python floats of the
extractor, every one of which is a short decimal, so the representation
is exact and equality of values is equality of representations. -/
structure Amt where
  num : Int
  exp : Nat
deriving DecidableEq, Repr

instance (n : Nat) : OfNat Amt n := ⟨⟨n, 0⟩⟩

instance : Neg Amt := ⟨fun a => ⟨-a.num, a.exp⟩⟩

/-- Bring num over ten-to-the-exp into canonical form by cancelling
factors of ten. -/
def normAmt (n : Int) : Nat → Amt
  | 0 => ⟨n, 0⟩
  | e + 1 => if n % 10 = 0 then normAmt (n / 10) e else ⟨n, e + 1⟩

/-- Scientific literals, so that 0.95 denotes the decimal 95 over 100. -/
@[reducible] instance : OfScientific Amt :=
  ⟨fun m b e => if b then normAmt (Int.ofNat m) e else ⟨(m : Int) * (10 : Int) ^ e, 0⟩⟩

/-- Multiply a decimal by an integer (the unit multipliers of the
parser), renormalizing. -/
def amtMulInt (a : Amt) (m : Int) : Amt :=
  normAmt (a.num * m) a.exp

/-- Digits of a list of characters interpreted as a base-10 natural. -/
def digitsToNat (cs : List Char) : Nat :=
  cs.foldl (fun a c => a * 10 + (c.toNat - 48)) 0

/-- Model of the Python float builtin restricted to plain decimal
literals: optional surrounding whitespace, an optional single sign, then
digits with at most one decimal point and at least one digit overall.
Scientific notation, underscore separators and inf and nan are omitted:
no string reaching float in this code base uses them, since every input
has already been stripped to digits, a sign, a dot, or junk that float
rejects either way. The result is exact. -/
def pyFloat (s : String) : Option Amt :=
  let cs := (pyStrip s).data
  let signed : Int × List Char :=
    match cs with
    | '-' :: rest => (-1, rest)
    | '+' :: rest => (1, rest)
    | rest => (1, rest)
  let intPart := signed.2.takeWhile (fun c => c ≠ '.')
  let rest := signed.2.dropWhile (fun c => c ≠ '.')
  if intPart.all Char.isDigit then
    match rest with
    | [] =>
      if intPart.isEmpty then none
      else some ⟨signed.1 * digitsToNat intPart, 0⟩
    | _ :: frac =>
      if frac.all Char.isDigit ∧ ¬(intPart.isEmpty ∧ frac.isEmpty) then
        some (normAmt (signed.1 * digitsToNat (intPart ++ frac)) frac.length)
      else none
  else none

/-- Embedding of RevenueBreakdownExtractor._parse_amount
(src/edgar/filing.py lines 618-645). -/
def parse_amount (amount_text : String) : Option Amt :=
  if amount_text = "" then none
  else
    let t := pyStrip (pyReplace (pyReplace (pyReplace (pyReplace amount_text "," "") "$" "") "(" "-") ")" "")
    let mt : Int × String :=
      if containsSub (pyLower t) "million" || containsSub (pyLower t) "m" then
        (1000000, pyReplace (pyReplace (pyLower t) "million" "") "m" "")
      else if containsSub (pyLower t) "thousand" || containsSub (pyLower t) "k" then
        (1000, pyReplace (pyReplace (pyLower t) "thousand" "") "k" "")
      else (1, t)
    if mt.2 = "—" || mt.2 = "-" || mt.2 = "" || mt.2 = "N/A" || mt.2 = "n/a" then none
    else
      match pyFloat mt.2 with
      | some v => some (amtMulInt v mt.1)
      | none => none

/-- The revenue indicator terms of _is_revenue_row
(src/edgar/filing.py lines 584-587). -/
def revenue_indicators : List String :=
  ["total revenue", "net sales", "total net sales", "revenue",
   "sales", "total sales", "net revenue", "total revenues", "net revenues"]

/-- The exclusion terms of _is_revenue_row
(src/edgar/filing.py lines 594-597). -/
def exclude_terms : List String :=
  ["cost", "expense", "income", "profit", "margin", "percentage",
   "ratio", "growth", "change", "variance"]

/-- Embedding of RevenueBreakdownExtractor._is_revenue_row
(src/edgar/filing.py lines 579-602). -/
def is_revenue_row (label : String) : Bool :=
  let l := pyLower label
  if !(revenue_indicators.any fun t => containsSub l t) then false
  else if exclude_terms.any (fun t => containsSub l t) then false
  else true

/-- The category vocabulary of _is_merchandise_category
(src/edgar/filing.py lines 609-615). -/
def revenue_categories : List String :=
  ["sales", "revenue", "net sales", "total sales", "product", "service",
   "segment", "geographic", "category", "foods", "non-foods", "fresh foods",
   "ancillary", "warehouse", "automotive", "energy", "services", "leasing",
   "iphone", "mac", "ipad", "wearables", "accessories", "total net sales",
   "net sales", "product net sales"]

/-- Embedding of RevenueBreakdownExtractor._is_merchandise_category
(src/edgar/filing.py lines 604-616). -/
def is_merchandise_category (category_name : String) : Bool :=
  let l := pyLower category_name
  revenue_categories.any fun cat => containsSub l cat

/-- Embedding of RevenueBreakdownExtractor._categorize_revenue_source
(src/edgar/filing.py lines 647-660). -/
def categorize_revenue_source (description : String) : String :=
  let d := pyLower description
  if ["united states", "canada", "international", "americas", "europe", "asia"].any
      (fun t => containsSub d t) then "geographic_segment"
  else if ["foods", "non-foods", "fresh foods", "automotive", "energy", "services", "product"].any
      (fun t => containsSub d t) then "merchandise_category"
  else if ["segment", "division"].any (fun t => containsSub d t) then "business_segment"
  else "other"

/-- A table is its list of rows; a row is the list of the text contents
of its cells (the td and th elements, in document order). -/
structure Table where
  rows : List (List String)
deriving DecidableEq, Repr

/-- The document handed to the extractor: the tables found in the whole
markup tree, and, for the notes strategy, the note sections located by
_find_note_sections, each given as the list of tables it contains. The
note-section locator itself walks the markup tree and is outside the
claims, so its output is part of the input model. -/
structure Doc where
  tables : List Table
  noteSections : List (List Table)
deriving DecidableEq, Repr

/-- Model of BeautifulSoup get_text on a table: the concatenation of the
text of all its cells in document order. -/
def tableText (t : Table) : String :=
  ⟨(t.rows.map (fun r => (r.map String.data).flatten)).flatten⟩

/-- A value stored under one key of revenue_breakdown: the generic and
segment extractors store a bare amount, the merchandise strategy stores
a year-to-amount mapping. -/
inductive BreakdownVal
  | flat (a : Amt)
  | byYear (m : List (String × Amt))
deriving DecidableEq, Repr

/-- One record of revenue_sources, in the three shapes the code
produces (generic extractor, segment extractor, merchandise loop). -/
inductive RevenueSource
  | perYear (description : String) (amount : Amt) (year : String) (category : String)
  | perSegment (description : String) (amount : Amt) (segment : String) (category : String)
  | perAmounts (description : String) (amounts : List (String × Amt)) (category : String)
deriving DecidableEq, Repr

/-- Python dict assignment d[k] = v on an insertion-ordered map: update
in place when the key exists, else append. -/
def dictSet {α : Type} (d : List (String × α)) (k : String) (v : α) : List (String × α) :=
  if d.any (fun p => p.1 == k) then
    d.map fun p => if p.1 == k then (k, v) else p
  else d ++ [(k, v)]

/-- The partial result assembled by _extract_revenue_from_table and
_extract_segment_revenue_from_table: just the two keys they fill. -/
structure SubResult where
  revenue_breakdown : List (String × BreakdownVal)
  revenue_sources : List RevenueSource
deriving DecidableEq, Repr

/-- The full result dict of the extractor entry points. The error key is
only present (some) in the failure result of Filing.get_revenue_breakdown. -/
structure ExtractionResult where
  total_revenue : Option Amt
  revenue_breakdown : List (String × BreakdownVal)
  revenue_sources : List RevenueSource
  extraction_method : Option String
  confidence_score : Amt
  error : Option String
deriving DecidableEq, Repr

/-- Model of re.search of the pattern 20 followed by two digits: the
leftmost occurrence, scanning position by position. -/
def yearSearchL : List Char → Option String
  | [] => none
  | c :: cs =>
    match c, cs with
    | '2', '0' :: a :: b :: _ =>
      if a.isDigit && b.isDigit then some ⟨['2', '0', a, b]⟩ else yearSearchL cs
    | _, _ => yearSearchL cs

/-- The header scan of _extract_revenue_from_table
(src/edgar/filing.py lines 395-402): for each cell of the header row, in
order, the leftmost 20xx match, paired with the cell index. No
deduplication of repeated year values. -/
def genericYearColumns (header : List String) : List (Nat × String) :=
  header.enum.filterMap fun p => (yearSearchL (pyStrip p.2).data).map fun y => (p.1, y)

/-- The first run of four consecutive digits of a string, scanning left
to right. This is the value of re.search of the pattern 20 and two
digits, alternated with any four digits, as used on line 255 of
src/edgar/filing.py: at any position, either branch matches exactly when
four digits start there, and the group is those four characters. The
guarding search on line 253 with the additional fiscal and fy branches
succeeds exactly when such a run exists, since every branch of it
contains four consecutive digits. -/
def fourRunL : List Char → Option String
  | [] => none
  | c :: cs =>
    match cs with
    | a :: b :: d :: _ =>
      if c.isDigit && a.isDigit && b.isDigit && d.isDigit then some ⟨[c, a, b, d]⟩
      else fourRunL cs
    | _ => none

/-- One header-candidate row of the merchandise scan
(src/edgar/filing.py lines 249-258): the cells whose stripped text has a
year match, deduplicated by year value keeping the first occurrence. -/
def merchYearsGo (i : Nat) (seen : List String) : List String → List (Nat × String)
  | [] => []
  | cell :: rest =>
    match fourRunL (pyStrip cell).data with
    | some y =>
      if y ∈ seen then merchYearsGo (i + 1) seen rest
      else (i, y) :: merchYearsGo (i + 1) (y :: seen) rest
    | none => merchYearsGo (i + 1) seen rest

/-- The year columns detected in one row by the merchandise scan. -/
def merchRowYears (row : List String) : List (Nat × String) :=
  merchYearsGo 0 [] row

/-- The header search of the merchandise strategy
(src/edgar/filing.py lines 246-262): the first scanned row with at least
one year match wins; the caller passes the first five rows. -/
def merchHeaderScan : List (List String) → Option (List (Nat × String))
  | [] => none
  | r :: rest =>
    if merchRowYears r ≠ [] then some (merchRowYears r) else merchHeaderScan rest

/-- The data-row loop body of _extract_revenue_from_table
(src/edgar/filing.py lines 408-437). -/
def processGenericRow (yearCols : List (Nat × String)) (acc : SubResult)
    (row : List String) : SubResult :=
  if row.length < 2 then acc
  else
    let label := pyStrip (row.getD 0 "")
    if !(is_revenue_row label) then acc
    else
      yearCols.foldl
        (fun acc pr =>
          if pr.1 < row.length then
            match parse_amount (pyStrip (row.getD pr.1 "")) with
            | some a =>
              { revenue_breakdown :=
                  dictSet acc.revenue_breakdown (label ++ "_" ++ pr.2) (BreakdownVal.flat a),
                revenue_sources := acc.revenue_sources ++
                  [RevenueSource.perYear label a pr.2 (categorize_revenue_source label)] }
            | none => acc
          else acc)
        acc

/-- Embedding of RevenueBreakdownExtractor._extract_revenue_from_table
(src/edgar/filing.py lines 381-439): header years are looked for in row
0 only; without a year match, or with fewer than two rows, or with an
empty resulting breakdown, the table yields no data. -/
def extract_revenue_from_table (t : Table) : Option SubResult :=
  if t.rows.length < 2 then none
  else
    let yearCols := genericYearColumns (t.rows.getD 0 [])
    if yearCols = [] then none
    else
      let r := (t.rows.drop 1).foldl (processGenericRow yearCols) ⟨[], []⟩
      if r.revenue_breakdown = [] then none else some r

/-- The header scan of _extract_segment_revenue_from_table
(src/edgar/filing.py lines 455-462): cells of row 0 whose lowered text
contains a geography or segment marker, kept with their stripped text. -/
def segColumns (header : List String) : List (Nat × String) :=
  header.enum.filterMap fun p =>
    let ct := pyStrip p.2
    if ["united states", "canada", "international", "segment"].any
        (fun k => containsSub (pyLower ct) k) then some (p.1, ct)
    else none

/-- The data-row loop body of _extract_segment_revenue_from_table
(src/edgar/filing.py lines 468-495). -/
def processSegmentRow (segCols : List (Nat × String)) (acc : SubResult)
    (row : List String) : SubResult :=
  if row.length < 2 then acc
  else
    let rowLabel := pyLower (pyStrip (row.getD 0 ""))
    if !(containsSub rowLabel "total revenue") && !(containsSub rowLabel "net sales") then acc
    else
      segCols.foldl
        (fun acc pr =>
          if pr.1 < row.length then
            match parse_amount (pyStrip (row.getD pr.1 "")) with
            | some a =>
              { revenue_breakdown :=
                  dictSet acc.revenue_breakdown (pr.2 ++ "_revenue") (BreakdownVal.flat a),
                revenue_sources := acc.revenue_sources ++
                  [RevenueSource.perSegment (pr.2 ++ " Revenue") a pr.2 "geographic_segment"] }
            | none => acc
          else acc)
        acc

/-- Embedding of RevenueBreakdownExtractor._extract_segment_revenue_from_table
(src/edgar/filing.py lines 441-497). -/
def extract_segment_revenue_from_table (t : Table) : Option SubResult :=
  if t.rows.length < 2 then none
  else
    let cols := segColumns (t.rows.getD 0 [])
    if cols = [] then none
    else
      let r := (t.rows.drop 1).foldl (processSegmentRow cols) ⟨[], []⟩
      if r.revenue_breakdown = [] then none else some r

/-- The broad keyword list of the merchandise-category strategy
(src/edgar/filing.py lines 222-230), verbatim, including the one entry
with capital letters that can never match the lowered table text. -/
def merchandise_keywords : List String :=
  ["foods and sundries", "non-foods", "fresh foods", "food", "sundries",
   "ancillary", "warehouse", "grocery", "apparel", "electronics", "pharmacy",
   "hardlines", "softlines", "membership fees", "merchandise", "ancillary and other",
   "net sales", "total sales", "automotive sales", "automotive regulatory credits",
   "energy generation and storage", "services and other", "automotive leasing",
   "energy generation and storage leasing", "segment", "product", "service",
   "geographic", "category", "revenue", "sales", "disaggregated", "iphone", "mac",
   "Wearables, Home and Accessories"]

/-- The mutable slice of the merchandise pass: the three result keys its
table loop writes (src/edgar/filing.py lines 271-308 only assign
total_revenue, revenue_breakdown and revenue_sources). -/
structure MerchState where
  total_revenue : Option Amt
  revenue_breakdown : List (String × BreakdownVal)
  revenue_sources : List RevenueSource
deriving DecidableEq, Repr

/-- Python dict get with a default on the year-to-amount mapping. -/
def lookupAmt (m : List (String × Amt)) (y : String) : Option Amt :=
  (m.find? fun p => p.1 == y).map Prod.snd

/-- The total-revenue period preference of the merchandise pass
(src/edgar/filing.py line 299): 2023, else 2022, else 2021, else none. -/
def merchTotalPick (m : List (String × Amt)) : Option Amt :=
  match lookupAmt m "2023" with
  | some v => some v
  | none =>
    match lookupAmt m "2022" with
    | some v => some v
    | none => lookupAmt m "2021"

/-- The per-row value read of the merchandise pass
(src/edgar/filing.py lines 280-293): only the first detected year column
is read; an empty or placeholder cell falls back to the next cell when
that index is in range; an out-of-range index is skipped. -/
def merchRowValue (yearCols : List (Nat × String)) (row : List String) :
    List (String × Amt) :=
  match yearCols with
  | [] => []
  | (idx, year) :: _ =>
    if idx < row.length then
      let raw := pyStrip (row.getD idx "")
      let raw :=
        if raw = "" || raw = "$" || raw = "—" || raw = "-" then
          if idx + 1 < row.length then pyStrip (row.getD (idx + 1) "") else raw
        else raw
      match parse_amount raw with
      | some a => [(year, a)]
      | none => []
    else []

/-- Nested dict update performed for a breakdown category of the
merchandise pass (src/edgar/filing.py lines 301-303): create the inner
mapping when absent, then update it with the values read for this row. -/
def merchBreakdownAdd (bd : List (String × BreakdownVal)) (cat : String)
    (rby : List (String × Amt)) : List (String × BreakdownVal) :=
  let bd := if bd.any (fun p => p.1 == cat) then bd else bd ++ [(cat, BreakdownVal.byYear [])]
  bd.map fun p =>
    if p.1 == cat then
      (cat,
        match p.2 with
        | BreakdownVal.byYear m => BreakdownVal.byYear (rby.foldl (fun m yv => dictSet m yv.1 yv.2) m)
        | v => v)
    else p

/-- The data-row loop body of the merchandise pass
(src/edgar/filing.py lines 271-308). -/
def merchProcessRow (yearCols : List (Nat × String)) (st : MerchState)
    (row : List String) : MerchState :=
  if row.length < 2 then st
  else
    let category := pyStrip (row.getD 0 "")
    if !(is_merchandise_category category) then st
    else
      let rby := merchRowValue yearCols row
      if rby = [] then st
      else
        if (["total", "net", "grand total", "consolidated"].any
              fun t => containsSub (pyLower category) t) &&
           (["sales", "revenue"].any fun t => containsSub (pyLower category) t) then
          { st with total_revenue := merchTotalPick rby }
        else
          { st with
            revenue_breakdown := merchBreakdownAdd st.revenue_breakdown category rby,
            revenue_sources := st.revenue_sources ++
              [RevenueSource.perAmounts category rby (categorize_revenue_source category)] }

/-- The per-table body of the merchandise pass
(src/edgar/filing.py lines 217-308): keyword gate on the table text,
year-header search over the first five rows, then the row loop over all
rows after row 0. -/
def merchProcessTable (st : MerchState) (t : Table) : MerchState :=
  let txt := pyStrip (pyLower (tableText t))
  if !(merchandise_keywords.any fun k => containsSub txt k) then st
  else
    match t.rows with
    | [] => st
    | rows =>
      match merchHeaderScan (rows.take 5) with
      | none => st
      | some yearCols => (rows.drop 1).foldl (merchProcessRow yearCols) st

/-- Embedding of
RevenueBreakdownExtractor._extract_from_merchandise_category_tables
(src/edgar/filing.py lines 201-315): aggregates over all tables of the
document, then scores 0.9 when anything, breakdown or total, was found. -/
def extract_from_merchandise_category_tables (doc : Doc) : ExtractionResult :=
  let st := doc.tables.foldl merchProcessTable ⟨none, [], []⟩
  { total_revenue := st.total_revenue,
    revenue_breakdown := st.revenue_breakdown,
    revenue_sources := st.revenue_sources,
    extraction_method := some "merchandise_category_tables",
    confidence_score :=
      if st.revenue_breakdown ≠ [] ∨ st.total_revenue ≠ none then 0.9 else 0,
    error := none }

/-- The table loop of _extract_from_disaggregated_revenue_tables
(src/edgar/filing.py lines 139-155): first table whose text contains the
phrase and whose extraction yields data. -/
def disaggFirst : List Table → Option SubResult
  | [] => none
  | t :: rest =>
    if containsSub (pyLower (tableText t)) "disaggregated revenue" then
      match extract_revenue_from_table t with
      | some d => some d
      | none => disaggFirst rest
    else disaggFirst rest

/-- Embedding of
RevenueBreakdownExtractor._extract_from_disaggregated_revenue_tables
(src/edgar/filing.py lines 126-157). -/
def extract_from_disaggregated_revenue_tables (doc : Doc) : ExtractionResult :=
  match disaggFirst doc.tables with
  | some d =>
    { total_revenue := none, revenue_breakdown := d.revenue_breakdown,
      revenue_sources := d.revenue_sources,
      extraction_method := some "disaggregated_revenue_tables",
      confidence_score := 0.95, error := none }
  | none =>
    { total_revenue := none, revenue_breakdown := [], revenue_sources := [],
      extraction_method := some "disaggregated_revenue_tables",
      confidence_score := 0, error := none }

/-- The segment keyword set (src/edgar/filing.py lines 178-181). -/
def segment_keywords : List String :=
  ["segment", "united states", "canada", "international",
   "geographic", "region", "market", "operations"]

/-- The revenue keyword set of the segment strategy
(src/edgar/filing.py line 186). -/
def segment_revenue_keywords : List String :=
  ["revenue", "sales", "net sales", "total revenue", "income"]

/-- The table loop of _extract_from_segment_tables
(src/edgar/filing.py lines 173-197): both keyword gates, then the first
table whose extraction yields a non-empty breakdown. -/
def segFirst : List Table → Option SubResult
  | [] => none
  | t :: rest =>
    let txt := pyStrip (pyLower (tableText t))
    if (segment_keywords.any fun k => containsSub txt k) &&
       (segment_revenue_keywords.any fun k => containsSub txt k) then
      match extract_segment_revenue_from_table t with
      | some d => if d.revenue_breakdown ≠ [] then some d else segFirst rest
      | none => segFirst rest
    else segFirst rest

/-- Embedding of RevenueBreakdownExtractor._extract_from_segment_tables
(src/edgar/filing.py lines 159-199). -/
def extract_from_segment_tables (doc : Doc) : ExtractionResult :=
  match segFirst doc.tables with
  | some d =>
    { total_revenue := none, revenue_breakdown := d.revenue_breakdown,
      revenue_sources := d.revenue_sources,
      extraction_method := some "segment_tables",
      confidence_score := 0.9, error := none }
  | none =>
    { total_revenue := none, revenue_breakdown := [], revenue_sources := [],
      extraction_method := some "segment_tables",
      confidence_score := 0, error := none }

/-- The table loop of _extract_from_notes_tables within one note section
(src/edgar/filing.py lines 335-349). -/
def notesFirstInSection : List Table → Option SubResult
  | [] => none
  | t :: rest =>
    if ["revenue", "sales", "net sales"].any (fun k => containsSub (pyLower (tableText t)) k) then
      match extract_revenue_from_table t with
      | some d => some d
      | none => notesFirstInSection rest
    else notesFirstInSection rest

/-- The section loop of _extract_from_notes_tables
(src/edgar/filing.py lines 332-349). -/
def notesFirst : List (List Table) → Option SubResult
  | [] => none
  | s :: rest =>
    match notesFirstInSection s with
    | some d => some d
    | none => notesFirst rest

/-- Embedding of RevenueBreakdownExtractor._extract_from_notes_tables
(src/edgar/filing.py lines 317-351). -/
def extract_from_notes_tables (doc : Doc) : ExtractionResult :=
  match notesFirst doc.noteSections with
  | some d =>
    { total_revenue := none, revenue_breakdown := d.revenue_breakdown,
      revenue_sources := d.revenue_sources,
      extraction_method := some "notes_tables",
      confidence_score := 0.7, error := none }
  | none =>
    { total_revenue := none, revenue_breakdown := [], revenue_sources := [],
      extraction_method := some "notes_tables",
      confidence_score := 0, error := none }

/-- The initial revenue_data dict of extract_revenue_breakdown
(src/edgar/filing.py lines 97-103). -/
def initRevenueData : ExtractionResult :=
  { total_revenue := none, revenue_breakdown := [], revenue_sources := [],
    extraction_method := none, confidence_score := 0, error := none }

/-- The orchestrator loop of extract_revenue_breakdown
(src/edgar/filing.py lines 113-124), over the outcome of each strategy
call: a raised exception is an error value and is skipped; a returned
result is accepted exactly when its breakdown is non-empty, and the loop
then stops; otherwise the initial dict is returned. -/
def runMethods : List (Except String ExtractionResult) → ExtractionResult
  | [] => initRevenueData
  | Except.ok r :: rest => if r.revenue_breakdown ≠ [] then r else runMethods rest
  | Except.error _ :: rest => runMethods rest

/-- Embedding of RevenueBreakdownExtractor.extract_revenue_breakdown
(src/edgar/filing.py lines 92-124). The four embedded strategies are
total functions, so each method outcome is an ok value here; runMethods
carries the error-handling structure of the loop. -/
def extract_revenue_breakdown (doc : Doc) : ExtractionResult :=
  runMethods
    [Except.ok (extract_from_disaggregated_revenue_tables doc),
     Except.ok (extract_from_segment_tables doc),
     Except.ok (extract_from_merchandise_category_tables doc),
     Except.ok (extract_from_notes_tables doc)]

/-- The terminal failure dict of Filing.get_revenue_breakdown
(src/edgar/filing.py lines 707-714). -/
def failedResult (e : String) : ExtractionResult :=
  { total_revenue := none, revenue_breakdown := [], revenue_sources := [],
    extraction_method := some "failed", confidence_score := 0, error := some e }

/-- Embedding of Filing.get_revenue_breakdown
(src/edgar/filing.py lines 697-714): the body builds the extractor and
runs it; any exception escaping that body is caught and converted into
the failure dict. The argument is the outcome of the body. -/
def get_revenue_breakdown (body : Except String ExtractionResult) : ExtractionResult :=
  match body with
  | Except.ok r => r
  | Except.error e => failedResult e

/-- A document with one disaggregated-revenue table. -/
def docDisagg : Doc :=
  ⟨[⟨[["Disaggregated Revenue", "2023"], ["Revenue", "1,000"]]⟩], []⟩

/-- The empty document. -/
def docEmpty : Doc := ⟨[], []⟩

/-- A merchandise table whose only accepted row is a total row. -/
def docTotalOnly : Doc :=
  ⟨[⟨[["Category", "2023"], ["Total net sales", "1,000"]]⟩], []⟩

/-- Three merchandise tables with three distinct categories. -/
def docThreeMerch : Doc :=
  ⟨[⟨[["Category", "2023"], ["Automotive revenue", "100"]]⟩,
    ⟨[["Category", "2023"], ["Energy revenue", "200"]]⟩,
    ⟨[["Category", "2023"], ["Services revenue", "300"]]⟩], []⟩

/-- A merchandise table with two detected year columns and values under
both. -/
def docTwoYears : Doc :=
  ⟨[⟨[["Category", "2023", "2022"], ["Automotive revenue", "100", "200"]]⟩], []⟩

/-- A disaggregated-revenue table whose data row has a currency spacer
cell in the year column and the figure in the next cell. -/
def docSpacer : Doc :=
  ⟨[⟨[["Disaggregated Revenue", "2023"], ["Revenue", "$", "1,000"]]⟩], []⟩

/-- A generic table with two year columns and a revenue row with a value
under each. -/
def tblGenTwoCols : Table :=
  ⟨[["Items", "2023", "2022"], ["Revenue", "100", "200"]]⟩

example :
    extract_revenue_breakdown docDisagg =
      { total_revenue := none,
        revenue_breakdown := [("Revenue_2023", BreakdownVal.flat 1000)],
        revenue_sources :=
          [RevenueSource.perYear "Revenue" 1000 "2023" "other"],
        extraction_method := some "disaggregated_revenue_tables",
        confidence_score := 0.95, error := none } := by decide

example : extract_revenue_breakdown docEmpty = initRevenueData := by decide

example :
    (extract_from_merchandise_category_tables docTotalOnly).total_revenue = some 1000 ∧
    (extract_from_merchandise_category_tables docTotalOnly).revenue_breakdown = [] ∧
    (extract_from_merchandise_category_tables docTotalOnly).confidence_score = 0.9 := by decide

example : extract_revenue_breakdown docTotalOnly = initRevenueData := by decide

example :
    (extract_from_merchandise_category_tables docThreeMerch).revenue_breakdown.map Prod.fst =
      ["Automotive revenue", "Energy revenue", "Services revenue"] := by decide

example :
    (extract_from_merchandise_category_tables docTwoYears).revenue_breakdown =
      [("Automotive revenue", BreakdownVal.byYear [("2023", 100)])] := by decide

example :
    (extract_from_disaggregated_revenue_tables docSpacer).revenue_breakdown = [] := by decide

example :
    extract_revenue_from_table tblGenTwoCols =
      some ⟨[("Revenue_2023", BreakdownVal.flat 100), ("Revenue_2022", BreakdownVal.flat 200)],
            [RevenueSource.perYear "Revenue" 100 "2023" "other",
             RevenueSource.perYear "Revenue" 200 "2022" "other"]⟩ := by decide

example : merchRowValue [(1, "2023")] ["Product revenue", "$", "1,000"] = [("2023", 1000)] := by decide

example : genericYearColumns ["2023", "2023"] = [(0, "2023"), (1, "2023")] := by decide

example : is_revenue_row "Total Revenue Growth Percentage" = false := by decide

example : parse_amount "$1,234" = some 1234 := by decide
example : parse_amount "(500)" = some (-500) := by decide
example : parse_amount "2.5 million" = some 2500000 := by decide
example : parse_amount "—" = none := by decide
example : parse_amount "" = none := by decide
example : parse_amount "abc" = none := by decide
example : parse_amount "N/A" = none := by decide

/-- The orchestrator is the first-non-empty-breakdown chain over the
four strategies in source order. -/
theorem extract_chain (doc : Doc) :
    extract_revenue_breakdown doc =
      (if (extract_from_disaggregated_revenue_tables doc).revenue_breakdown ≠ [] then
        extract_from_disaggregated_revenue_tables doc
      else if (extract_from_segment_tables doc).revenue_breakdown ≠ [] then
        extract_from_segment_tables doc
      else if (extract_from_merchandise_category_tables doc).revenue_breakdown ≠ [] then
        extract_from_merchandise_category_tables doc
      else if (extract_from_notes_tables doc).revenue_breakdown ≠ [] then
        extract_from_notes_tables doc
      else initRevenueData) := rfl

/-- C1: extract_revenue_breakdown tries the four strategies in the fixed
order disaggregated, segment, merchandise-category, notes; it advances
past a strategy exactly when that strategy returned an empty
revenue_breakdown, returns the first result with a non-empty breakdown,
every such winning result carries the fixed confidence score of its
strategy (0.95, 0.9, 0.9, 0.7) and its method label, and once a method
result with a non-empty breakdown is reached the outcome does not depend
on the strategies placed after it. -/
theorem claim1_strategy_order (doc : Doc) :
    (extract_revenue_breakdown doc =
      (if (extract_from_disaggregated_revenue_tables doc).revenue_breakdown ≠ [] then
        extract_from_disaggregated_revenue_tables doc
      else if (extract_from_segment_tables doc).revenue_breakdown ≠ [] then
        extract_from_segment_tables doc
      else if (extract_from_merchandise_category_tables doc).revenue_breakdown ≠ [] then
        extract_from_merchandise_category_tables doc
      else if (extract_from_notes_tables doc).revenue_breakdown ≠ [] then
        extract_from_notes_tables doc
      else initRevenueData))
    ∧ ((extract_from_disaggregated_revenue_tables doc).revenue_breakdown ≠ [] →
        (extract_from_disaggregated_revenue_tables doc).extraction_method =
            some "disaggregated_revenue_tables" ∧
        (extract_from_disaggregated_revenue_tables doc).confidence_score = 0.95)
    ∧ ((extract_from_segment_tables doc).revenue_breakdown ≠ [] →
        (extract_from_segment_tables doc).extraction_method = some "segment_tables" ∧
        (extract_from_segment_tables doc).confidence_score = 0.9)
    ∧ ((extract_from_merchandise_category_tables doc).revenue_breakdown ≠ [] →
        (extract_from_merchandise_category_tables doc).extraction_method =
            some "merchandise_category_tables" ∧
        (extract_from_merchandise_category_tables doc).confidence_score = 0.9)
    ∧ ((extract_from_notes_tables doc).revenue_breakdown ≠ [] →
        (extract_from_notes_tables doc).extraction_method = some "notes_tables" ∧
        (extract_from_notes_tables doc).confidence_score = 0.7)
    ∧ (∀ (r : ExtractionResult) (rest : List (Except String ExtractionResult)),
        r.revenue_breakdown ≠ [] → runMethods (Except.ok r :: rest) = r) := by
  refine ⟨extract_chain doc, ?_, ?_, ?_, ?_, ?_⟩
  · intro h
    unfold extract_from_disaggregated_revenue_tables at h ⊢
    cases hd : disaggFirst doc.tables <;> simp [hd] at h ⊢
  · intro h
    unfold extract_from_segment_tables at h ⊢
    cases hd : segFirst doc.tables <;> simp [hd] at h ⊢
  · intro h
    unfold extract_from_merchandise_category_tables at h ⊢
    simp only at h ⊢
    rw [if_pos (Or.inl h)]
    constructor <;> trivial
  · intro h
    unfold extract_from_notes_tables at h ⊢
    cases hd : notesFirst doc.noteSections <;> simp [hd] at h ⊢
  · intro r rest h
    simp [runMethods, h]

/-- Witness for C1 at a concrete document whose first strategy wins. -/
theorem claim1_strategy_order_witness :
    ((extract_from_disaggregated_revenue_tables docDisagg).extraction_method =
        some "disaggregated_revenue_tables" ∧
     (extract_from_disaggregated_revenue_tables docDisagg).confidence_score = 0.95) ∧
    runMethods [Except.ok (extract_from_disaggregated_revenue_tables docDisagg)] =
      extract_from_disaggregated_revenue_tables docDisagg :=
  ⟨(claim1_strategy_order docDisagg).2.1 (by decide),
   (claim1_strategy_order docDisagg).2.2.2.2.2
     (extract_from_disaggregated_revenue_tables docDisagg) [] (by decide)⟩

/-- C2: a strategy outcome that is an exception is skipped by the
orchestrator loop exactly as a strategy returning an empty result would
be; an exception escaping to Filing.get_revenue_breakdown is converted
into the failure dict, with method failed, confidence 0 and the error
description, and a normal outcome passes through unchanged, so revenue
extraction never propagates an exception to the caller. -/
theorem claim2_exception_isolation :
    (∀ (e : String) (r : ExtractionResult) (rest : List (Except String ExtractionResult)),
        r.revenue_breakdown = [] →
          runMethods (Except.error e :: rest) = runMethods rest ∧
          runMethods (Except.error e :: rest) = runMethods (Except.ok r :: rest))
    ∧ (∀ e : String,
        get_revenue_breakdown (Except.error e) = failedResult e ∧
        (get_revenue_breakdown (Except.error e)).extraction_method = some "failed" ∧
        (get_revenue_breakdown (Except.error e)).confidence_score = 0 ∧
        (get_revenue_breakdown (Except.error e)).error = some e)
    ∧ (∀ doc : Doc,
        get_revenue_breakdown (Except.ok (extract_revenue_breakdown doc)) =
          extract_revenue_breakdown doc) := by
  refine ⟨?_, ?_, ?_⟩
  · intro e r rest h
    refine ⟨rfl, ?_⟩
    simp [runMethods, h]
  · intro e
    exact ⟨rfl, rfl, rfl, rfl⟩
  · intro doc
    rfl

/-- Witness for C2 at a concrete error and strategy list. -/
theorem claim2_exception_isolation_witness :
    runMethods [Except.error "boom"] =
      runMethods [Except.ok (initRevenueData : ExtractionResult)] ∧
    (get_revenue_breakdown (Except.error "boom")).extraction_method = some "failed" ∧
    (get_revenue_breakdown (Except.error "boom")).error = some "boom" :=
  ⟨(claim2_exception_isolation.1 "boom" initRevenueData [] (by decide)).2,
   (claim2_exception_isolation.2.1 "boom").2.1,
   (claim2_exception_isolation.2.1 "boom").2.2.2⟩

/-- C3: parse_amount is total over strings, returning a value or none
and never failing; the dash sentinels, the empty string and the
case variants of N/A parse to none; and the six reference examples
evaluate as specified. -/
theorem claim3_parse_amount_total :
    (∀ s : String, parse_amount s = none ∨ ∃ a : Amt, parse_amount s = some a)
    ∧ parse_amount "—" = none
    ∧ parse_amount "-" = none
    ∧ parse_amount "" = none
    ∧ parse_amount "N/A" = none
    ∧ parse_amount "n/a" = none
    ∧ parse_amount "N/a" = none
    ∧ parse_amount "n/A" = none
    ∧ parse_amount "$1,234" = some 1234
    ∧ parse_amount "(500)" = some (-500)
    ∧ parse_amount "2.5 million" = some 2500000
    ∧ parse_amount "abc" = none := by
  refine ⟨?_, by decide, by decide, by decide, by decide, by decide, by decide,
    by decide, by decide, by decide, by decide, by decide⟩
  intro s
  cases h : parse_amount s with
  | none => exact Or.inl rfl
  | some a => exact Or.inr ⟨a, rfl⟩

/-- C4: when every strategy comes back with an empty breakdown, the
orchestrator returns the untouched initial dict: empty breakdown, no
total, confidence 0, and a method value distinct from the failed label
of the outer exception handler. -/
theorem claim4_no_strategy_fallback (doc : Doc)
    (h1 : (extract_from_disaggregated_revenue_tables doc).revenue_breakdown = [])
    (h2 : (extract_from_segment_tables doc).revenue_breakdown = [])
    (h3 : (extract_from_merchandise_category_tables doc).revenue_breakdown = [])
    (h4 : (extract_from_notes_tables doc).revenue_breakdown = []) :
    extract_revenue_breakdown doc = initRevenueData ∧
    (extract_revenue_breakdown doc).revenue_breakdown = [] ∧
    (extract_revenue_breakdown doc).total_revenue = none ∧
    (extract_revenue_breakdown doc).confidence_score = 0 ∧
    (extract_revenue_breakdown doc).extraction_method = none ∧
    ∀ e : String,
      (extract_revenue_breakdown doc).extraction_method ≠ (failedResult e).extraction_method := by
  have hc : extract_revenue_breakdown doc = initRevenueData := by
    rw [extract_chain doc]
    simp [h1, h2, h3, h4]
  rw [hc]
  refine ⟨rfl, rfl, rfl, rfl, rfl, ?_⟩
  intro e
  simp [initRevenueData, failedResult]

/-- Witness for C4 at the empty document. -/
theorem claim4_no_strategy_fallback_witness :
    extract_revenue_breakdown docEmpty = initRevenueData ∧
    (extract_revenue_breakdown docEmpty).total_revenue = none :=
  ⟨(claim4_no_strategy_fallback docEmpty (by decide) (by decide) (by decide) (by decide)).1,
   (claim4_no_strategy_fallback docEmpty (by decide) (by decide) (by decide) (by decide)).2.2.1⟩

/-- C5 counterexample: in the disaggregated strategy, whose tables go
through the generic extractor, a row whose year-column cell is the
dollar placeholder with the figure in the next cell yields nothing at
all, not the amount 1000 for that year as the claim requires of every
strategy. -/
theorem claim5_counterexample :
    (extract_from_disaggregated_revenue_tables docSpacer).revenue_breakdown = [] ∧
    (extract_from_disaggregated_revenue_tables docSpacer).revenue_breakdown ≠
      [("Revenue_2023", BreakdownVal.flat 1000)] := by decide

/-- C5 amended: only the merchandise-category strategy applies the
next-cell fallback. There, whenever the cell at the first detected
year-column index is in range and empty or a placeholder, the value is
read from the cell at the next index when that is in range, and
otherwise the placeholder itself is parsed, which yields no value, so
the column is skipped for that row without error. The generic extractor
used by the disaggregated and notes strategies parses the detected cell
directly with no fallback. -/
theorem claim5_merch_spacer_fallback (idx : Nat) (year : String)
    (tl : List (Nat × String)) (row : List String)
    (hin : idx < row.length)
    (hsp : pyStrip (row.getD idx "") = "" ∨ pyStrip (row.getD idx "") = "$" ∨
           pyStrip (row.getD idx "") = "—" ∨ pyStrip (row.getD idx "") = "-") :
    merchRowValue ((idx, year) :: tl) row =
      (if idx + 1 < row.length then
        match parse_amount (pyStrip (row.getD (idx + 1) "")) with
        | some a => [(year, a)]
        | none => []
      else []) := by
  simp only [merchRowValue, if_pos hin]
  by_cases hnext : idx + 1 < row.length
  · rcases hsp with h | h | h | h <;> rw [h] <;> simp [hnext]
  · rcases hsp with h | h | h | h <;> rw [h] <;>
      simp [hnext, show parse_amount "" = none from by decide,
        show parse_amount "$" = none from by decide,
        show parse_amount "—" = none from by decide,
        show parse_amount "-" = none from by decide]

/-- Witness for C5 at the concrete spacer row of the specification, in
range and out of range. -/
theorem claim5_merch_spacer_fallback_witness :
    merchRowValue [(1, "2023")] ["Product revenue", "$", "1,000"] = [("2023", 1000)] ∧
    merchRowValue [(1, "2023")] ["Product revenue", "$"] = [] := by
  constructor
  · rw [claim5_merch_spacer_fallback 1 "2023" [] ["Product revenue", "$", "1,000"]
      (by decide) (Or.inr (Or.inl (by decide)))]
    decide
  · rw [claim5_merch_spacer_fallback 1 "2023" [] ["Product revenue", "$"]
      (by decide) (Or.inr (Or.inl (by decide)))]
    decide

/-- C6: the merchandise-category pass folds over every table of the
document, so a later matching table is still processed after earlier
ones contributed, and the three-table document yields all three
categories; each of the other three strategies stops at the first
matching table that yields data, whatever tables follow. -/
theorem claim6_aggregation_vs_first_match :
    ((extract_from_merchandise_category_tables docThreeMerch).revenue_breakdown.map Prod.fst =
      ["Automotive revenue", "Energy revenue", "Services revenue"])
    ∧ (∀ (pre : List Table) (t : Table) (st : MerchState),
        (pre ++ [t]).foldl merchProcessTable st =
          merchProcessTable (pre.foldl merchProcessTable st) t)
    ∧ (∀ (t : Table) (rest : List Table) (d : SubResult),
        containsSub (pyLower (tableText t)) "disaggregated revenue" = true →
        extract_revenue_from_table t = some d →
        disaggFirst (t :: rest) = some d)
    ∧ (∀ (t : Table) (rest : List Table) (d : SubResult),
        (segment_keywords.any fun k => containsSub (pyStrip (pyLower (tableText t))) k) = true →
        (segment_revenue_keywords.any fun k =>
          containsSub (pyStrip (pyLower (tableText t))) k) = true →
        extract_segment_revenue_from_table t = some d →
        d.revenue_breakdown ≠ [] →
        segFirst (t :: rest) = some d)
    ∧ (∀ (t : Table) (rest : List Table) (d : SubResult),
        (["revenue", "sales", "net sales"].any fun k =>
          containsSub (pyLower (tableText t)) k) = true →
        extract_revenue_from_table t = some d →
        notesFirstInSection (t :: rest) = some d) := by
  refine ⟨by decide, ?_, ?_, ?_, ?_⟩
  · intro pre t st
    simp [List.foldl_append]
  · intro t rest d hk hx
    simp [disaggFirst, hk, hx]
  · intro t rest d hk1 hk2 hx hb
    simp [segFirst, hk1, hk2, hx, hb]
  · intro t rest d hk hx
    simp [notesFirstInSection, hk, hx]

/-- Witness for C6: the disaggregated strategy stops at the first
matching table with data even when a second matching table follows. -/
theorem claim6_aggregation_vs_first_match_witness :
    disaggFirst
      [⟨[["Disaggregated Revenue", "2023"], ["Revenue", "1,000"]]⟩,
       ⟨[["Disaggregated Revenue", "2023"], ["Revenue", "7"]]⟩] =
      some ⟨[("Revenue_2023", BreakdownVal.flat 1000)],
            [RevenueSource.perYear "Revenue" 1000 "2023" "other"]⟩ := by
  rw [claim6_aggregation_vs_first_match.2.2.1
    ⟨[["Disaggregated Revenue", "2023"], ["Revenue", "1,000"]]⟩
    [⟨[["Disaggregated Revenue", "2023"], ["Revenue", "7"]]⟩]
    ⟨[("Revenue_2023", BreakdownVal.flat 1000)],
     [RevenueSource.perYear "Revenue" 1000 "2023" "other"]⟩
    (by decide) (by decide)]

/-- C7 counterexample: in the merchandise-category pass, a table with
two detected year columns and parseable values under both yields only
the first period for the accepted row, not both periods as the claim
requires of every table extraction. -/
theorem claim7_counterexample :
    (extract_from_merchandise_category_tables docTwoYears).revenue_breakdown =
      [("Automotive revenue", BreakdownVal.byYear [("2023", 100)])] ∧
    (extract_from_merchandise_category_tables docTwoYears).revenue_breakdown ≠
      [("Automotive revenue", BreakdownVal.byYear [("2023", 100), ("2022", 200)])] := by
  decide

/-- C7 amended: the generic extractor reads a value at every detected
header column index, so a row can yield as many period entries as there
are detected year columns; the merchandise-category pass instead reads
only the first detected year column, so its per-row amounts mapping
always has at most one entry and never depends on the later detected
columns. -/
theorem claim7_columns_read :
    (extract_revenue_from_table tblGenTwoCols =
      some ⟨[("Revenue_2023", BreakdownVal.flat 100), ("Revenue_2022", BreakdownVal.flat 200)],
            [RevenueSource.perYear "Revenue" 100 "2023" "other",
             RevenueSource.perYear "Revenue" 200 "2022" "other"]⟩)
    ∧ (∀ (yearCols : List (Nat × String)) (row : List String),
        (merchRowValue yearCols row).length ≤ 1)
    ∧ (∀ (c : Nat × String) (tl tl2 : List (Nat × String)) (row : List String),
        merchRowValue (c :: tl) row = merchRowValue (c :: tl2) row) := by
  refine ⟨by decide, ?_, ?_⟩
  · intro yearCols row
    match yearCols with
    | [] => simp [merchRowValue]
    | (idx, year) :: tl =>
      simp only [merchRowValue]
      split
      · split <;> simp
      · simp
  · intro c tl tl2 row
    rfl

/-- C8: is_revenue_row accepts exactly the labels whose lowered text
contains some revenue indicator and no exclusion term, exclusion taking
precedence, and in particular rejects the growth-percentage label. -/
theorem claim8_is_revenue_row (label : String) :
    (is_revenue_row label = true ↔
      ((∃ t ∈ revenue_indicators, containsSub (pyLower label) t = true) ∧
       ∀ t ∈ exclude_terms, containsSub (pyLower label) t = false))
    ∧ is_revenue_row "Total Revenue Growth Percentage" = false := by
  refine ⟨?_, by decide⟩
  have hb : is_revenue_row label =
      ((revenue_indicators.any fun t => containsSub (pyLower label) t) &&
       !(exclude_terms.any fun t => containsSub (pyLower label) t)) := by
    unfold is_revenue_row
    cases h1 : revenue_indicators.any fun t => containsSub (pyLower label) t <;>
      cases h2 : exclude_terms.any fun t => containsSub (pyLower label) t <;>
        simp [h1, h2]
  rw [hb]
  simp [List.any_eq_true, List.any_eq_false, Bool.and_eq_true, Bool.not_eq_true']

/-- Witness for C8: the iff applied at a concrete accepted label. -/
theorem claim8_is_revenue_row_witness : is_revenue_row "Net sales" = true :=
  (claim8_is_revenue_row "Net sales").1.mpr
    ⟨⟨"net sales", by decide, by decide⟩, by decide⟩

/-- When no scanned row has a year match, the merchandise header search
fails. -/
theorem merchHeaderScan_none (l : List (List String))
    (h : ∀ r ∈ l, merchRowYears r = []) : merchHeaderScan l = none := by
  induction l with
  | nil => rfl
  | cons r rest ih =>
    have hr : merchRowYears r = [] := h r (List.mem_cons_self r rest)
    simp [merchHeaderScan, hr]
    exact ih fun x hx => h x (List.mem_cons_of_mem r hx)

/-- The year values collected by the merchandise header scan of one row
avoid the given seen list and repeat no value. -/
theorem merchYearsGo_nodup (cells : List String) :
    ∀ (i : Nat) (seen : List String),
      ((merchYearsGo i seen cells).map Prod.snd).Nodup ∧
      ∀ y ∈ (merchYearsGo i seen cells).map Prod.snd, y ∉ seen := by
  induction cells with
  | nil => intro i seen; simp [merchYearsGo]
  | cons cell rest ih =>
    intro i seen
    simp only [merchYearsGo]
    cases hf : fourRunL (pyStrip cell).data with
    | none => exact ih (i + 1) seen
    | some y =>
      by_cases hs : y ∈ seen
      · simp only [if_pos hs]
        exact ih (i + 1) seen
      · simp only [if_neg hs, List.map_cons, List.nodup_cons, List.mem_cons]
        obtain ⟨hnd, hsub⟩ := ih (i + 1) (y :: seen)
        refine ⟨⟨?_, hnd⟩, ?_⟩
        · intro hy
          exact (hsub y hy) (List.mem_cons_self y seen)
        · rintro z (rfl | hz)
          · exact hs
          · intro hzs
            exact (hsub z hz) (List.mem_cons_of_mem y hzs)

/-- C9 counterexample: the generic header scan does not deduplicate by
year value — a header row with the same year in two cells yields two
columns, where the claim requires only the first occurrence to be kept. -/
theorem claim9_counterexample :
    genericYearColumns ["2023", "2023"] = [(0, "2023"), (1, "2023")] ∧
    genericYearColumns ["2023", "2023"] ≠ [(0, "2023")] := by decide

/-- C9 amended: the generic extractor scans only row 0 and rejects the
table when that row has no year match; the merchandise pass scans the
first five rows, skips the table when none of them has a year match,
takes the first scanned row with a match as the header row, and
deduplicates its matched years by value keeping the first occurrence;
the generic scan keeps every matching column, repeated year values
included. -/
theorem claim9_header_detection :
    (∀ (r0 : List String) (rest : List (List String)),
        genericYearColumns r0 = [] →
        extract_revenue_from_table ⟨r0 :: rest⟩ = none)
    ∧ (∀ (st : MerchState) (t : Table),
        (∀ r ∈ t.rows.take 5, merchRowYears r = []) →
        merchProcessTable st t = st)
    ∧ (∀ (r : List String) (rs : List (List String)),
        merchRowYears r ≠ [] →
        merchHeaderScan (r :: rs) = some (merchRowYears r))
    ∧ (∀ row : List String, ((merchRowYears row).map Prod.snd).Nodup) := by
  refine ⟨?_, ?_, ?_, ?_⟩
  · intro r0 rest h
    cases rest with
    | nil => simp [extract_revenue_from_table]
    | cons r rs => simp [extract_revenue_from_table, h]
  · intro st t h
    unfold merchProcessTable
    by_cases hk : (merchandise_keywords.any fun k =>
        containsSub (pyStrip (pyLower (tableText t))) k) = true
    · simp only [hk, Bool.not_true, Bool.false_eq_true, if_false]
      cases ht : t.rows with
      | nil => rfl
      | cons r rs =>
        have hn : merchHeaderScan ((r :: rs).take 5) = none := by
          apply merchHeaderScan_none
          intro x hx
          exact h x (ht ▸ hx)
        rw [List.take_succ_cons] at hn
        simp [hn]
    · simp only [Bool.not_eq_true] at hk
      simp [hk]
  · intro r rs h
    simp [merchHeaderScan, h]
  · intro row
    exact (merchYearsGo_nodup row 0 []).1

/-- Witness for C9 at concrete rows: a header row without years rejects
the generic table, and a merchandise header row with a year match is
taken as the header. -/
theorem claim9_header_detection_witness :
    extract_revenue_from_table ⟨[["Items"], ["Revenue", "5"]]⟩ = none ∧
    merchHeaderScan [["2023"]] = some [(0, "2023")] := by
  constructor
  · exact claim9_header_detection.1 ["Items"] [["Revenue", "5"]] (by decide)
  · rw [claim9_header_detection.2.2.1 ["2023"] [] (by decide)]
    decide

/-- C10: a result of extract_revenue_breakdown with an empty breakdown
always has no total revenue; the merchandise pass can internally return
a captured total with an empty breakdown at confidence 0.9, but the
orchestrator accepts a strategy result only on a non-empty breakdown,
so such a total never reaches the caller. -/
theorem claim10_total_requires_breakdown :
    (∀ doc : Doc,
        (extract_revenue_breakdown doc).revenue_breakdown = [] →
        (extract_revenue_breakdown doc).total_revenue = none)
    ∧ (extract_from_merchandise_category_tables docTotalOnly).total_revenue = some 1000
    ∧ (extract_from_merchandise_category_tables docTotalOnly).revenue_breakdown = []
    ∧ (extract_from_merchandise_category_tables docTotalOnly).confidence_score = 0.9
    ∧ extract_revenue_breakdown docTotalOnly = initRevenueData := by
  refine ⟨?_, by decide, by decide, by decide, by decide⟩
  intro doc h
  rw [extract_chain doc] at h ⊢
  split_ifs at h ⊢ with c1 c2 c3 c4
  · exact absurd h c1
  · exact absurd h c2
  · exact absurd h c3
  · exact absurd h c4
  · rfl

/-- Witness for C10 at the total-only document. -/
theorem claim10_total_requires_breakdown_witness :
    (extract_revenue_breakdown docTotalOnly).total_revenue = none :=
  claim10_total_requires_breakdown.1 docTotalOnly (by decide)

end Edgar
